import Mathlib

/-!
Verification of the geminikit browser-automation library.

The development shallowly embeds the TypeScript sources (`browser.ts`,
`client.ts`, `errors.ts`, `lib.ts`, `types.ts`): pure computations become
Lean functions over lists of bytes and strings, the page/engine environment
becomes explicit oracles (one value per polling iteration), the filesystem
becomes an association list from paths to byte lists, and thrown JavaScript
errors become an explicit error type threaded through `Except`.
-/

set_option maxRecDepth 4000

namespace GeminiKit

/-- Errors thrown by the library. `gemini` models the typed `GeminiError`
subclasses of `errors.ts` (class name, human message, machine-readable code);
`plain` models an untyped JavaScript `Error` that carries only a message. -/
inductive JsError where
  | gemini (name : String) (message : String) (code : String)
  | plain (message : String)
deriving DecidableEq

/-- Mirror of `isGeminiError` in `errors.ts`: the `instanceof GeminiError`
test, true exactly on the typed subclasses. -/
def isGeminiError : JsError → Bool
  | .gemini _ _ _ => true
  | .plain _ => false

/-- Pixel dimensions as returned by `GeminiClient.getImageDimensions`. -/
structure Dims where
  width : Nat
  height : Nat
deriving DecidableEq

/-! ### Binary inspector (`GeminiClient.getImageDimensions`, client.ts)

A file is a list of byte values. `byteAt` reads with default 0, which is
faithful to the source: the header is read into a zero-filled
`Buffer.alloc(24)` (bytes past the end of a short file stay 0), and the JPEG
scan only dereferences offsets its loop bound keeps in range. -/

/-- Byte `i` of the file, 0 when out of range. -/
def byteAt (f : List Nat) (i : Nat) : Nat := f.getD i 0

/-- Big-endian 32-bit read at offset `i` (`Buffer.readUInt32BE`). -/
def readUInt32BE (f : List Nat) (i : Nat) : Nat :=
  byteAt f i * 16777216 + byteAt f (i + 1) * 65536 + byteAt f (i + 2) * 256 + byteAt f (i + 3)

/-- Big-endian 16-bit read at offset `i` (`Buffer.readUInt16BE`). -/
def readUInt16BE (f : List Nat) (i : Nat) : Nat :=
  byteAt f i * 256 + byteAt f (i + 1)

/-- The scan condition of the JPEG branch: bytes `0xFF 0xC0` at offset `i`. -/
def sof0At (f : List Nat) (i : Nat) : Bool :=
  byteAt f i == 0xff && byteAt f (i + 1) == 0xc0

/-- The `for (let i = 0; i < buf.length - 9; i++)` scan of the JPEG branch:
try offsets `i, i+1, ...` with `fuel` offsets left, returning the first hit.
JavaScript evaluates `buf.length - 9` as a possibly negative number and the
loop then runs zero times; truncated `Nat` subtraction gives the same zero
iteration count. -/
def findSOF0Aux (f : List Nat) : Nat → Nat → Option Nat
  | 0, _ => none
  | fuel + 1, i => if sof0At f i then some i else findSOF0Aux f fuel (i + 1)

/-- Offset of the first `FF C0` pair strictly below `f.length - 9`. -/
def findSOF0 (f : List Nat) : Option Nat :=
  findSOF0Aux f (f.length - 9) 0

/-- Shallow embedding of `GeminiClient.getImageDimensions` (client.ts): if the
first two bytes match the start of the PNG signature (`0x89 0x50` — the
source checks only these two bytes), return the big-endian 32-bit fields at
offsets 16 and 20; otherwise scan for an `FF C0` pair and return the
big-endian 16-bit width at its offset +7 and height at +5; otherwise the zero
sentinel. The whole body sits in `try { } catch {}` in the source and this
embedding is a total function: no byte sequence makes it raise. -/
def getImageDimensions (f : List Nat) : Dims :=
  if byteAt f 0 == 0x89 && byteAt f 1 == 0x50 then
    ⟨readUInt32BE f 16, readUInt32BE f 20⟩
  else
    match findSOF0 f with
    | some i => ⟨readUInt16BE f (i + 7), readUInt16BE f (i + 5)⟩
    | none => ⟨0, 0⟩

/-- A file that cannot be opened or read at all: the `catch` of the source
turns the I/O error into the zero sentinel. -/
def getImageDimensionsFromFile : Option (List Nat) → Dims
  | none => ⟨0, 0⟩
  | some f => getImageDimensions f

/-- Modelled from the spec wording of the claim: the full 8-byte PNG
signature is present. The source itself checks only the first two bytes. -/
def pngSignatureSpec (f : List Nat) : Bool :=
  8 ≤ f.length && byteAt f 0 == 0x89 && byteAt f 1 == 0x50 && byteAt f 2 == 0x4e &&
    byteAt f 3 == 0x47 && byteAt f 4 == 0x0d && byteAt f 5 == 0x0a &&
    byteAt f 6 == 0x1a && byteAt f 7 == 0x0a

theorem findSOF0Aux_eq_none (f : List Nat) :
    ∀ fuel i, (∀ k, k < fuel → sof0At f (i + k) = false) →
      findSOF0Aux f fuel i = none := by
  intro fuel
  induction fuel with
  | zero => intro i _; rfl
  | succ n ih =>
    intro i h
    have h0 : sof0At f i = false := by simpa using h 0 (Nat.succ_pos n)
    have hrest : ∀ k, k < n → sof0At f (i + 1 + k) = false := by
      intro k hk
      have := h (k + 1) (by omega)
      have harith : i + (k + 1) = i + 1 + k := by omega
      rwa [harith] at this
    simp [findSOF0Aux, h0]
    exact ih (i + 1) hrest

theorem findSOF0Aux_eq_some (f : List Nat) :
    ∀ fuel j i, j < fuel → (∀ k, k < j → sof0At f (i + k) = false) →
      sof0At f (i + j) = true → findSOF0Aux f fuel i = some (i + j) := by
  intro fuel
  induction fuel with
  | zero => intro j i hj; omega
  | succ n ih =>
    intro j i hj hquiet hhit
    cases j with
    | zero =>
      have h0 : sof0At f i = true := by simpa using hhit
      simp [findSOF0Aux, h0]
    | succ m =>
      have h0 : sof0At f i = false := by simpa using hquiet 0 (Nat.succ_pos m)
      have hquiet' : ∀ k, k < m → sof0At f (i + 1 + k) = false := by
        intro k hk
        have := hquiet (k + 1) (by omega)
        have harith : i + (k + 1) = i + 1 + k := by omega
        rwa [harith] at this
      have hhit' : sof0At f (i + 1 + m) = true := by
        have harith : i + (m + 1) = i + 1 + m := by omega
        rwa [harith] at hhit
      have := ih m (i + 1) (by omega) hquiet' hhit'
      have harith : i + 1 + m = i + (m + 1) := by omega
      rw [harith] at this
      simp [findSOF0Aux, h0]
      exact this

theorem pngSignatureSpec_start (f : List Nat) (h : pngSignatureSpec f = true) :
    (byteAt f 0 == 0x89 && byteAt f 1 == 0x50) = true := by
  simp only [pngSignatureSpec, Bool.and_eq_true, beq_iff_eq] at h
  simp [beq_iff_eq, h.1.1.1.1.1.1.2, h.1.1.1.1.1.1.1.2]

/-- C1 (amended). `getImageDimensions` on any input whose first two bytes are
`0x89 0x50` — which includes every file with a full PNG signature — returns
exactly the big-endian 32-bit fields at byte offsets 16 and 20 (the encoded
PNG width and height); on any other input it returns the big-endian 16-bit
fields at offsets +7 (width) and +5 (height) of the first `FF C0` pair found
below `length - 9` (the encoded JPEG dimensions whenever that first pair is
the SOF0 marker); when no such pair exists, and for unreadable files, it
returns the `{0,0}` sentinel. It never raises (it is a total function). -/
theorem c1_getImageDimensions_amended (f : List Nat) :
    ((byteAt f 0 == 0x89 && byteAt f 1 == 0x50) = true →
      getImageDimensions f = ⟨readUInt32BE f 16, readUInt32BE f 20⟩) ∧
    (pngSignatureSpec f = true →
      getImageDimensions f = ⟨readUInt32BE f 16, readUInt32BE f 20⟩) ∧
    ((byteAt f 0 == 0x89 && byteAt f 1 == 0x50) = false →
      (∀ i, i < f.length - 9 → sof0At f i = false) →
      getImageDimensions f = ⟨0, 0⟩) ∧
    (∀ j, (byteAt f 0 == 0x89 && byteAt f 1 == 0x50) = false →
      j < f.length - 9 → (∀ k, k < j → sof0At f k = false) → sof0At f j = true →
      getImageDimensions f = ⟨readUInt16BE f (j + 7), readUInt16BE f (j + 5)⟩) ∧
    getImageDimensionsFromFile none = ⟨0, 0⟩ := by
  refine ⟨?_, ?_, ?_, ?_, rfl⟩
  · intro h
    simp [getImageDimensions, h]
  · intro h
    simp [getImageDimensions, pngSignatureSpec_start f h]
  · intro hpng hquiet
    have hnone : findSOF0 f = none := by
      apply findSOF0Aux_eq_none
      intro k hk
      simpa using hquiet k hk
    simp [getImageDimensions, hpng, hnone]
  · intro j hpng hj hquiet hhit
    have hsome : findSOF0 f = some j := by
      have := findSOF0Aux_eq_some f (f.length - 9) j 0 hj
        (by intro k hk; simpa using hquiet k hk) (by simpa using hhit)
      simpa using this
    simp [getImageDimensions, hpng, hsome]

/-- A complete 24-byte PNG header: signature, IHDR length and tag, width 256,
height 512. -/
def pngEx : List Nat :=
  [0x89, 0x50, 0x4e, 0x47, 0x0d, 0x0a, 0x1a, 0x0a,
   0x00, 0x00, 0x00, 0x0d, 0x49, 0x48, 0x44, 0x52,
   0x00, 0x00, 0x01, 0x00, 0x00, 0x00, 0x02, 0x00]

/-- A minimal JPEG fragment whose first `FF C0` pair is the SOF0 marker at
offset 2, encoding height 100 and width 200. -/
def jpegEx : List Nat :=
  [0xff, 0xd8, 0xff, 0xc0, 0x00, 0x11, 0x08, 0x00, 0x64, 0x00, 0xc8, 0x03]

/-- Witness for `c1_getImageDimensions_amended` at concrete files. -/
theorem c1_getImageDimensions_amended_witness :
    getImageDimensions pngEx = ⟨256, 512⟩ ∧
    getImageDimensions jpegEx = ⟨200, 100⟩ ∧
    getImageDimensions [1, 2, 3] = ⟨0, 0⟩ := by
  refine ⟨?_, ?_, ?_⟩
  · exact ((c1_getImageDimensions_amended pngEx).2.1 (by decide)).trans (by decide)
  · exact ((c1_getImageDimensions_amended jpegEx).2.2.2.1 2 (by decide) (by decide)
      (by decide) (by decide)).trans (by decide)
  · exact (c1_getImageDimensions_amended [1, 2, 3]).2.2.1 (by decide) (by decide)

/-- A byte sequence that begins with the two bytes the source checks but is
not a PNG (no full signature) and contains no `0xFF` byte at all, so it is
no JPEG either and holds no SOF0 marker. -/
def pngLookalike : List Nat :=
  [0x89, 0x50, 0, 0, 0, 0, 0, 0, 0, 0, 0, 0, 0, 0, 0, 0,
   0, 0, 0, 5, 0, 0, 0, 7]

/-- C1 counterexample. `pngLookalike` has no PNG signature and, containing no
`0xFF` byte, is not a JPEG and has no SOF0 marker, so the claim requires the
`{0,0}` sentinel for it; the code instead returns width 5, height 7, because
it only tests the first two signature bytes. -/
theorem c1_counterexample :
    pngSignatureSpec pngLookalike = false ∧
    pngLookalike.all (fun b => b != 0xff) = true ∧
    getImageDimensions pngLookalike = ⟨5, 7⟩ ∧
    Dims.mk 5 7 ≠ Dims.mk 0 0 := by decide

/-! ### Login wait (`GeminiClient.ensureLoggedIn`, client.ts)

The page is abstracted to one observation per polling iteration. A poll in
the source first checks `page.url().includes('gemini.google.com')` and then
evaluates the chat-input presence inside a `try { } catch {}`; the loop
continues on a URL mismatch, a false evaluation, or a caught evaluation
error, and returns only when the evaluation reports the input present. -/

/-- Outcome of one iteration of the login polling loop. -/
inductive PollStep where
  | offSite
  | evalError
  | notReady
  | ready
deriving DecidableEq

/-- The error thrown when the login polling loop is exhausted. -/
def authTimeoutError : JsError :=
  .gemini "AuthenticationError" "Login timeout after 5 minutes." "AUTH_ERROR"

/-- The `for (let i = 0; i < 60; i++)` polling loop of `ensureLoggedIn`:
`i` is the current 0-based poll index, `fuel` the iterations left. On
success it returns the 1-based index of the poll that saw the login; every
non-`ready` outcome (wrong URL, input absent, caught evaluation error)
just continues. -/
def loginPollLoop (poll : Nat → PollStep) : Nat → Nat → Except JsError Nat
  | _, 0 => .error authTimeoutError
  | i, fuel + 1 =>
    match poll i with
    | .ready => .ok (i + 1)
    | _ => loginPollLoop poll (i + 1) fuel

/-- Shallow embedding of `GeminiClient.ensureLoggedIn`: when the initial
logged-in evaluation succeeds the function returns at once (0 polls);
otherwise it runs the 60-iteration polling loop. -/
def ensureLoggedIn (initiallyLoggedIn : Bool) (poll : Nat → PollStep) :
    Except JsError Nat :=
  if initiallyLoggedIn then .ok 0 else loginPollLoop poll 0 60

theorem loginPollLoop_timeout (poll : Nat → PollStep) :
    ∀ fuel i, (∀ j, j < fuel → poll (i + j) ≠ .ready) →
      loginPollLoop poll i fuel = .error authTimeoutError := by
  intro fuel
  induction fuel with
  | zero => intro i _; rfl
  | succ n ih =>
    intro i h
    have h0 : poll i ≠ .ready := by simpa using h 0 (Nat.succ_pos n)
    have hrest : ∀ j, j < n → poll (i + 1 + j) ≠ .ready := by
      intro j hj
      have := h (j + 1) (by omega)
      have harith : i + (j + 1) = i + 1 + j := by omega
      rwa [harith] at this
    cases hp : poll i <;> simp [loginPollLoop, hp] <;> first
      | exact ih (i + 1) hrest
      | exact absurd hp h0

theorem loginPollLoop_success (poll : Nat → PollStep) :
    ∀ fuel n i, n < fuel → (∀ j, j < n → poll (i + j) ≠ .ready) →
      poll (i + n) = .ready → loginPollLoop poll i fuel = .ok (i + n + 1) := by
  intro fuel
  induction fuel with
  | zero => intro n i hn; omega
  | succ m ih =>
    intro n i hn hquiet hready
    cases n with
    | zero =>
      have h0 : poll i = .ready := by simpa using hready
      simp [loginPollLoop, h0]
    | succ k =>
      have h0 : poll i ≠ .ready := by simpa using hquiet 0 (Nat.succ_pos k)
      have hquiet' : ∀ j, j < k → poll (i + 1 + j) ≠ .ready := by
        intro j hj
        have := hquiet (j + 1) (by omega)
        have harith : i + (j + 1) = i + 1 + j := by omega
        rwa [harith] at this
      have hready' : poll (i + 1 + k) = .ready := by
        have harith : i + (k + 1) = i + 1 + k := by omega
        rwa [harith] at hready
      have := ih k (i + 1) (by omega) hquiet' hready'
      have harith : i + 1 + k = i + (k + 1) := by omega
      rw [harith] at this
      cases hp : poll i <;> simp [loginPollLoop, hp] <;> first
        | exact this
        | exact absurd hp h0

theorem loginPollLoop_bound (poll : Nat → PollStep) :
    ∀ fuel i k, loginPollLoop poll i fuel = .ok k → k ≤ i + fuel := by
  intro fuel
  induction fuel with
  | zero => intro i k h; exact absurd h (by simp [loginPollLoop])
  | succ n ih =>
    intro i k h
    cases hp : poll i <;> rw [loginPollLoop, hp] at h
    case ready => simp at h; omega
    all_goals have := ih (i + 1) k h; omega

/-- C2 (amended). If the initial check succeeds, no polling happens. If it
fails, the driver polls at most 60 times: when the page first reports
logged-in at poll `n + 1` with `n + 1 ≤ 60`, success is returned at that
poll (earlier polls may be off-site, report the input absent, or raise a
caught evaluation error — all are tolerated); when none of the 60 polls
reports logged-in, the call fails with an `AUTH_ERROR` whose message is
"Login timeout after 5 minutes." (with a trailing period). -/
theorem c2_ensureLoggedIn_amended (poll : Nat → PollStep) (n : Nat) :
    ensureLoggedIn true poll = .ok 0 ∧
    (n < 60 → (∀ j, j < n → poll j ≠ .ready) → poll n = .ready →
      ensureLoggedIn false poll = .ok (n + 1)) ∧
    ((∀ j, j < 60 → poll j ≠ .ready) →
      ensureLoggedIn false poll = .error authTimeoutError) ∧
    (∀ k, ensureLoggedIn false poll = .ok k → k ≤ 60) := by
  refine ⟨rfl, ?_, ?_, ?_⟩
  · intro hn hquiet hready
    have := loginPollLoop_success poll 60 n 0 hn
      (by intro j hj; simpa using hquiet j hj) (by simpa using hready)
    simpa [ensureLoggedIn] using this
  · intro hquiet
    have := loginPollLoop_timeout poll 60 0 (by intro j hj; simpa using hquiet j hj)
    simpa [ensureLoggedIn] using this
  · intro k h
    have := loginPollLoop_bound poll 60 0 k (by simpa [ensureLoggedIn] using h)
    omega

/-- A simulated page: evaluation errors on the first two polls, then ready. -/
def demoPoll : Nat → PollStep := fun n => if n = 2 then .ready else .evalError

/-- Witness for `c2_ensureLoggedIn_amended`: success at poll 3 after two
caught evaluation errors, and timeout on a page that never leaves the
authentication domain. -/
theorem c2_ensureLoggedIn_amended_witness :
    ensureLoggedIn false demoPoll = .ok 3 ∧
    ensureLoggedIn false (fun _ => PollStep.offSite) = .error authTimeoutError := by
  constructor
  · exact (c2_ensureLoggedIn_amended demoPoll 2).2.1 (by decide) (by decide) (by decide)
  · exact (c2_ensureLoggedIn_amended (fun _ => PollStep.offSite) 0).2.2.1
      (by intro j hj; decide)

/-- C2 counterexample. The exhaustion error message carries a trailing
period, "Login timeout after 5 minutes.", so it is not the string
"Login timeout after 5 minutes" that the claim states. -/
theorem c2_counterexample :
    ensureLoggedIn false (fun _ => PollStep.notReady) =
      .error (.gemini "AuthenticationError" "Login timeout after 5 minutes."
        "AUTH_ERROR") ∧
    "Login timeout after 5 minutes." ≠ "Login timeout after 5 minutes" := by
  exact ⟨rfl, by decide⟩

/-! ### Generation wait (`GeminiClient.generateImage` polling loop, client.ts)

Each iteration of the `while (Date.now() - startTime < timeout)` loop first
evaluates the refusal check against the page text and throws a
`GenerationError` when a refusal phrase is present, and only then tests
whether a generated image element is visible. The wall-clock bound is
abstracted into `fuel`, the number of iterations the timeout still allows. -/

/-- Per-iteration observations of the generation page. -/
structure GenPoll where
  refusal : Nat → Bool
  imageVisible : Nat → Bool

/-- The error thrown when a refusal phrase is detected. -/
def refusalError : JsError :=
  .gemini "GenerationError"
    "Gemini refused to generate this image. Try a different prompt."
    "GENERATION_ERROR"

/-- The error thrown when the generation wait exhausts its timeout. -/
def genTimeoutError (timeoutMs : Nat) : JsError :=
  .gemini "GenerationError"
    ("Image generation timed out after " ++ toString (timeoutMs / 1000) ++ "s")
    "GENERATION_ERROR"

/-- The generation-wait polling loop: at poll `i` the refusal check runs
first and wins, then the image-visibility check; on success the index of
the detecting poll is returned; exhausted fuel is the timeout. -/
def generationWait (timeoutMs : Nat) (pg : GenPoll) : Nat → Nat → Except JsError Nat
  | _, 0 => .error (genTimeoutError timeoutMs)
  | i, fuel + 1 =>
    if pg.refusal i then .error refusalError
    else if pg.imageVisible i then .ok i
    else generationWait timeoutMs pg (i + 1) fuel

theorem generationWait_refusal (timeoutMs : Nat) (pg : GenPoll) :
    ∀ fuel n i, n < fuel →
      (∀ j, j < n → pg.refusal (i + j) = false ∧ pg.imageVisible (i + j) = false) →
      pg.refusal (i + n) = true →
      generationWait timeoutMs pg i fuel = .error refusalError := by
  intro fuel
  induction fuel with
  | zero => intro n i hn; omega
  | succ m ih =>
    intro n i hn hquiet href
    cases n with
    | zero =>
      have h0 : pg.refusal i = true := by simpa using href
      simp [generationWait, h0]
    | succ k =>
      have h0 := hquiet 0 (Nat.succ_pos k)
      simp only [Nat.add_zero] at h0
      have hquiet' : ∀ j, j < k →
          pg.refusal (i + 1 + j) = false ∧ pg.imageVisible (i + 1 + j) = false := by
        intro j hj
        have := hquiet (j + 1) (by omega)
        have harith : i + (j + 1) = i + 1 + j := by omega
        rwa [harith] at this
      have href' : pg.refusal (i + 1 + k) = true := by
        have harith : i + (k + 1) = i + 1 + k := by omega
        rwa [harith] at href
      simp [generationWait, h0.1, h0.2]
      exact ih k (i + 1) (by omega) hquiet' href'

theorem generationWait_found (timeoutMs : Nat) (pg : GenPoll) :
    ∀ fuel n i, n < fuel →
      (∀ j, j < n → pg.refusal (i + j) = false ∧ pg.imageVisible (i + j) = false) →
      pg.refusal (i + n) = false → pg.imageVisible (i + n) = true →
      generationWait timeoutMs pg i fuel = .ok (i + n) := by
  intro fuel
  induction fuel with
  | zero => intro n i hn; omega
  | succ m ih =>
    intro n i hn hquiet href himg
    cases n with
    | zero =>
      have h1 : pg.refusal i = false := by simpa using href
      have h2 : pg.imageVisible i = true := by simpa using himg
      simp [generationWait, h1, h2]
    | succ k =>
      have h0 := hquiet 0 (Nat.succ_pos k)
      simp only [Nat.add_zero] at h0
      have hquiet' : ∀ j, j < k →
          pg.refusal (i + 1 + j) = false ∧ pg.imageVisible (i + 1 + j) = false := by
        intro j hj
        have := hquiet (j + 1) (by omega)
        have harith : i + (j + 1) = i + 1 + j := by omega
        rwa [harith] at this
      have harith : i + (k + 1) = i + 1 + k := by omega
      rw [harith] at href himg
      have := ih k (i + 1) (by omega) hquiet' href himg
      rw [harith]
      simp [generationWait, h0.1, h0.2]
      exact this

/-- C3. In the generation-wait loop both checks run in every polling
iteration and the refusal check runs first: at the first poll `n` at which
anything is detected, a present refusal phrase makes the call fail with the
`GENERATION_ERROR` refusal error — even when a generated image is visible in
the same poll (the first clause places no condition on `imageVisible n`) —
and the loop proceeds to the image check, and so possibly to the download
step, only when the refusal check is negative. -/
theorem c3_refusal_priority (timeoutMs : Nat) (pg : GenPoll) (fuel n : Nat) :
    (n < fuel →
      (∀ j, j < n → pg.refusal j = false ∧ pg.imageVisible j = false) →
      pg.refusal n = true →
      generationWait timeoutMs pg 0 fuel = .error refusalError) ∧
    (n < fuel →
      (∀ j, j < n → pg.refusal j = false ∧ pg.imageVisible j = false) →
      pg.refusal n = false → pg.imageVisible n = true →
      generationWait timeoutMs pg 0 fuel = .ok n) := by
  constructor
  · intro hn hquiet href
    have := generationWait_refusal timeoutMs pg fuel n 0 hn
      (by intro j hj; simpa using hquiet j hj) (by simpa using href)
    simpa using this
  · intro hn hquiet href himg
    have := generationWait_found timeoutMs pg fuel n 0 hn
      (by intro j hj; simpa using hquiet j hj) (by simpa using href)
      (by simpa using himg)
    simpa using this

/-- Witness for `c3_refusal_priority`: a page that shows a refusal phrase
and a visible generated image in the same (first) poll fails with the
refusal `GENERATION_ERROR`; a page showing only the image succeeds. -/
theorem c3_refusal_priority_witness :
    generationWait 120000 ⟨fun _ => true, fun _ => true⟩ 0 40 = .error refusalError ∧
    generationWait 120000 ⟨fun _ => false, fun _ => true⟩ 0 40 = .ok 0 := by
  constructor
  · exact (c3_refusal_priority 120000 ⟨fun _ => true, fun _ => true⟩ 40 0).1
      (by decide) (by intro j hj; omega) (by decide)
  · exact (c3_refusal_priority 120000 ⟨fun _ => false, fun _ => true⟩ 40 0).2
      (by decide) (by intro j hj; omega) (by decide) (by decide)

/-! ### Prompt construction (`GeminiClient.generateImage`, client.ts)

The outgoing text starts from the fixed template and appends an
aspect-ratio annotation only when `options.aspectRatio` is truthy; in
JavaScript both an omitted option and the empty string are falsy. -/

/-- Shallow embedding of the prompt construction: `none` models an omitted
`aspectRatio`, `some s` a supplied one; the `if (options.aspectRatio)` test
of the source is false for `undefined` and for the empty string alike. -/
def buildFullPrompt (prompt : String) (ar : Option String) : String :=
  match ar with
  | none => "Generate an image: " ++ prompt
  | some s =>
    if s = "" then "Generate an image: " ++ prompt
    else "Generate an image: " ++ prompt ++ " (aspect ratio: " ++ s ++ ")"

/-- C10. Passing the empty string as the aspect-ratio hint is exactly like
omitting it: the submitted text is the fixed template followed by the user
prompt, with no annotation appended, identical in both cases. -/
theorem c10_empty_aspect_hint (p : String) :
    buildFullPrompt p (some "") = "Generate an image: " ++ p ∧
    buildFullPrompt p none = "Generate an image: " ++ p ∧
    buildFullPrompt p (some "") = buildFullPrompt p none := by
  refine ⟨by simp [buildFullPrompt], rfl, by simp [buildFullPrompt]⟩

/-! ### Download trigger (`GeminiClient.generateImage` retry loop and
`GeminiClient.clickDownloadButton`, client.ts)

Per attempt `k` the environment records whether the designated control and
the generic fallback are visible and whether a download event fires within
the 30-second bound of `page.waitForEvent`. In the source the
`Promise.all` of one attempt rejects either when the click helper throws
(button not found) or when the event wait times out; both rejections land
in the same `catch`, which pauses 2 seconds and retries once, and on the
second failure throws the exhaustion `GenerationError`. -/

/-- The error thrown when both download attempts fail. -/
def downloadFailedError : JsError :=
  .gemini "GenerationError" "Download button did not trigger a file download"
    "GENERATION_ERROR"

/-- The error thrown by `clickDownloadButton` when neither control exists. -/
def noButtonError : JsError :=
  .gemini "GenerationError" "Could not find download button" "GENERATION_ERROR"

/-- Shallow embedding of `GeminiClient.clickDownloadButton`: click the
designated control when visible, fall back to a generic download-labelled
control, and throw a `GenerationError` when neither is visible. -/
def clickDownloadButton (primaryVisible fallbackVisible : Bool) :
    Except JsError Unit :=
  if primaryVisible then .ok ()
  else if fallbackVisible then .ok ()
  else .error noButtonError

/-- Per-attempt observations of the page during the download step. -/
structure DownloadEnv where
  primaryVisible : Nat → Bool
  fallbackVisible : Nat → Bool
  eventFires : Nat → Bool
  saveFailure : Option String

/-- One attempt of the retry loop succeeds exactly when the click helper
did not throw and the download event fired within its 30-second bound. -/
def downloadAttempt (env : DownloadEnv) (k : Nat) : Bool :=
  match clickDownloadButton (env.primaryVisible k) (env.fallbackVisible k) with
  | .error _ => false
  | .ok _ => env.eventFires k

/-- The `for (let attempt = 0; attempt < 2; attempt++)` retry loop: at most
two attempts, any failure of the first (timeout or click error) is caught
and retried after the 2-second pause, and a failure of the second is
replaced by the exhaustion `GenerationError`. On success it returns the
0-based index of the attempt that produced the download. -/
def triggerDownload (env : DownloadEnv) : Except JsError Nat :=
  if downloadAttempt env 0 then .ok 0
  else if downloadAttempt env 1 then .ok 1
  else .error downloadFailedError

/-- The save step after the retry loop: `download.saveAs(absPath)` stores
the file at the resolved requested path, then `download.failure()` is
consulted and a non-null failure is rethrown as a `GenerationError`. -/
def saveDownload (env : DownloadEnv) (absPath : String) : Except JsError String :=
  match triggerDownload env with
  | .error e => .error e
  | .ok _ =>
    match env.saveFailure with
    | some msg =>
      .error (.gemini "GenerationError" ("Download failed: " ++ msg)
        "GENERATION_ERROR")
    | none => .ok absPath

/-- C4 (amended). The download trigger makes at most 2 attempts (one retry
after the 2-second pause when the first attempt yields no download event
within its 30-second bound); exhausting both attempts fails with a
`GENERATION_ERROR` whose message is "Download button did not trigger a file
download" — and this is also what surfaces when no download control can be
located on either attempt, because the inner helper's distinct
`GENERATION_ERROR` "Could not find download button" is caught by the retry
loop and never escapes it; a successful attempt saves the downloaded file
at the resolved requested path. -/
theorem c4_download_retry_amended (env : DownloadEnv) (absPath : String) :
    (∀ k, triggerDownload env = .ok k → k ≤ 1) ∧
    (downloadAttempt env 0 = false → downloadAttempt env 1 = false →
      triggerDownload env = .error downloadFailedError) ∧
    ((∀ k, k ≤ 1 → env.primaryVisible k = false ∧ env.fallbackVisible k = false) →
      triggerDownload env = .error downloadFailedError) ∧
    clickDownloadButton false false = .error noButtonError ∧
    (downloadAttempt env 0 = true ∨ downloadAttempt env 1 = true →
      env.saveFailure = none → saveDownload env absPath = .ok absPath) := by
  refine ⟨?_, ?_, ?_, rfl, ?_⟩
  · intro k h
    by_cases h0 : downloadAttempt env 0
    · simp [triggerDownload, h0] at h; omega
    · by_cases h1 : downloadAttempt env 1
      · simp [triggerDownload, h0, h1] at h; omega
      · simp [triggerDownload, h0, h1] at h
  · intro h0 h1
    simp [triggerDownload, h0, h1]
  · intro hnone
    have h0 := hnone 0 (by omega)
    have h1 := hnone 1 (by omega)
    have a0 : downloadAttempt env 0 = false := by
      simp [downloadAttempt, clickDownloadButton, h0.1, h0.2]
    have a1 : downloadAttempt env 1 = false := by
      simp [downloadAttempt, clickDownloadButton, h1.1, h1.2]
    simp [triggerDownload, a0, a1]
  · intro hok hsave
    by_cases h0 : downloadAttempt env 0
    · simp [saveDownload, triggerDownload, h0, hsave]
    · have h1 : downloadAttempt env 1 = true := by
        rcases hok with h | h
        · exact absurd h h0
        · exact h
      simp [saveDownload, triggerDownload, h0, h1, hsave]

/-- An environment whose first attempt stalls (no event) and whose second
attempt succeeds, with no post-download failure. -/
def retryEnv : DownloadEnv :=
  ⟨fun _ => true, fun _ => false, fun k => k == 1, none⟩

/-- An environment where neither download control ever becomes visible. -/
def deadButtonEnv : DownloadEnv :=
  ⟨fun _ => false, fun _ => false, fun _ => false, none⟩

/-- Witness for `c4_download_retry_amended`: the stalled-then-working
environment downloads on the retry, and the control-less environment
exhausts both attempts. -/
theorem c4_download_retry_amended_witness :
    saveDownload retryEnv "/tmp/out.png" = .ok "/tmp/out.png" ∧
    triggerDownload deadButtonEnv = .error downloadFailedError ∧
    triggerDownload retryEnv = .ok 1 := by
  refine ⟨?_, ?_, ?_⟩
  · exact (c4_download_retry_amended retryEnv "/tmp/out.png").2.2.2.2
      (Or.inr (by decide)) rfl
  · exact (c4_download_retry_amended deadButtonEnv "/tmp/out.png").2.2.1
      (by intro k hk; constructor <;> rfl)
  · rfl

/-- C4 counterexample. When no download control can be located on either
attempt, the call does not fail with "Could not find download button" as
the claim states: the helper's error is caught by the retry loop and the
surfaced `GENERATION_ERROR` carries the exhaustion message instead. -/
theorem c4_counterexample :
    triggerDownload deadButtonEnv =
      .error (.gemini "GenerationError"
        "Download button did not trigger a file download" "GENERATION_ERROR") ∧
    clickDownloadButton false false =
      .error (.gemini "GenerationError" "Could not find download button"
        "GENERATION_ERROR") ∧
    ("Download button did not trigger a file download" : String) ≠
      "Could not find download button" := by
  exact ⟨rfl, rfl, by decide⟩

/-! ### Headless default (`lib.ts`, `client.ts`, `browser.ts`)

The top-level `generateImage` forwards `options.headless` unchanged through
`GeminiClient.connect` to `GeminiBrowser.connect`, which launches the
persistent context with `headless: options.headless ?? false`. -/

/-- The headless flag `GeminiBrowser.connect` hands to
`chromium.launchPersistentContext`: `options.headless ?? false`. -/
def launchHeadless (headlessOpt : Option Bool) : Bool := headlessOpt.getD false

/-- The plumbing from the top-level `generateImage` down to the launch:
`lib.ts` passes `{ headless: options.headless }` and `GeminiClient.connect`
forwards its options object unchanged. -/
def topLevelLaunchHeadless (headlessOpt : Option Bool) : Bool :=
  launchHeadless headlessOpt

/-- C6 evaluated at the failing input. With the `headless` option omitted,
the top-level `generateImage` launches the browser with `headless = false`
(a visible window), contradicting the documented default of `true`: the
`?? false` in `GeminiBrowser.connect` makes visibility, not headless mode,
the default. -/
theorem c6_headless_default_bug :
    topLevelLaunchHeadless none = false ∧
    topLevelLaunchHeadless none ≠ true ∧
    topLevelLaunchHeadless (some true) = true := by decide

/-! ### Browser session manager (`GeminiBrowser`, browser.ts)

The state keeps the context-open flag and the optional page handle (pages
are identified by a number). `connect` launches the context, closes pages
left over from earlier sessions and opens one fresh page; `disconnect`
closes the context when open and clears both fields. -/

/-- The mutable fields of `GeminiBrowser`. -/
structure GeminiBrowserState where
  contextOpen : Bool
  pageHandle : Option Nat
deriving DecidableEq

/-- Fresh instance: `context = null`, `_page = null`. -/
def initialBrowser : GeminiBrowserState := ⟨false, none⟩

/-- `GeminiBrowser.connect`: after launching, exactly one fresh page. -/
def browserConnect (pageId : Nat) : GeminiBrowserState := ⟨true, some pageId⟩

/-- `GeminiBrowser.disconnect`: closes and clears when a context is open,
and is a no-op otherwise (idempotent). -/
def browserDisconnect (s : GeminiBrowserState) : GeminiBrowserState :=
  if s.contextOpen then ⟨false, none⟩ else s

/-- Shallow embedding of the `page` getter of `GeminiBrowser`: with no page
it throws the plain `Error` of the source — an untyped error, not one of
the `GeminiError` subclasses. -/
def pageAccess (s : GeminiBrowserState) : Except JsError Nat :=
  match s.pageHandle with
  | some p => .ok p
  | none => .error (.plain "Not connected - call connect() first")

/-- C7 (amended). Accessing the page handle before `connect`, or after
`disconnect`, fails — but with a plain untyped `Error` whose message is
"Not connected - call connect() first", not with a typed error of kind
BROWSER: every error the getter can produce fails the `isGeminiError` test
and so carries no `BROWSER_ERROR` code. -/
theorem c7_page_access_amended (s : GeminiBrowserState) (pid : Nat) :
    pageAccess initialBrowser =
      .error (.plain "Not connected - call connect() first") ∧
    pageAccess (browserDisconnect (browserConnect pid)) =
      .error (.plain "Not connected - call connect() first") ∧
    (s.pageHandle = none →
      pageAccess s = .error (.plain "Not connected - call connect() first")) ∧
    (∀ e, pageAccess s = .error e → isGeminiError e = false) := by
  refine ⟨rfl, rfl, ?_, ?_⟩
  · intro h
    simp [pageAccess, h]
  · intro e h
    cases hp : s.pageHandle with
    | some p => simp [pageAccess, hp] at h
    | none =>
      simp [pageAccess, hp] at h
      rw [← h]
      rfl

/-- Witness for `c7_page_access_amended` at a concrete disconnected state. -/
theorem c7_page_access_amended_witness :
    pageAccess ⟨false, none⟩ =
      .error (.plain "Not connected - call connect() first") ∧
    isGeminiError (.plain "Not connected - call connect() first") = false := by
  constructor
  · exact (c7_page_access_amended ⟨false, none⟩ 0).2.2.1 rfl
  · exact (c7_page_access_amended ⟨false, none⟩ 0).2.2.2
      (.plain "Not connected - call connect() first")
      ((c7_page_access_amended ⟨false, none⟩ 0).2.2.1 rfl)

/-- C7 counterexample. Before any `connect`, and again after `disconnect`,
the `page` getter throws the plain `Error` "Not connected - call connect()
first"; `isGeminiError` rejects it, so the thrown error is not of kind
BROWSER and carries no `BROWSER_ERROR` code (the `BrowserError` class of
`errors.ts` is never constructed here). -/
theorem c7_counterexample :
    pageAccess initialBrowser =
      .error (.plain "Not connected - call connect() first") ∧
    pageAccess (browserDisconnect (browserConnect 1)) =
      .error (.plain "Not connected - call connect() first") ∧
    isGeminiError (.plain "Not connected - call connect() first") = false := by
  exact ⟨rfl, rfl, rfl⟩

/-! ### Artifact post-processor (`GeminiClient.removeWatermark`, client.ts)

The filesystem is an association list from paths to byte lists. The
external tool is abstracted by whether its entry script exists, the bytes
it manages to write to the temporary output path (possibly partial output
written before a failure), and whether the subprocess finishes with exit
code zero inside its 120-second bound. -/

/-- A filesystem: paths mapped to file contents. -/
def FS : Type := List (String × List Nat)

/-- Content at a path (`none` when the path does not exist). -/
def fsFind : FS → String → Option (List Nat)
  | [], _ => none
  | (q, b) :: rest, p => if q = p then some b else fsFind rest p

/-- `fs.existsSync`. -/
def fsExists (fs : FS) (p : String) : Bool := (fsFind fs p).isSome

/-- Remove a path (`fs.unlinkSync`, guarded by `existsSync` in the source). -/
def fsErase : FS → String → FS
  | [], _ => []
  | (q, b) :: rest, p => if q = p then fsErase rest p else (q, b) :: fsErase rest p

/-- Write content at a path, replacing what was there. -/
def fsInsert (fs : FS) (p : String) (b : List Nat) : FS := (p, b) :: fsErase fs p

/-- `fs.renameSync src dst`: move the content (the source only calls this
under an `existsSync` guard, so the missing-source case never throws). -/
def fsRename (fs : FS) (src dst : String) : FS :=
  match fsFind fs src with
  | none => fs
  | some b => fsInsert (fsErase fs src) dst b

/-- Behaviour of one invocation of the external watermark tool. -/
structure ToolBehavior where
  output : Option (List Nat)
  exitOk : Bool

/-- Shallow embedding of `GeminiClient.removeWatermark`. When the tool's
entry script is absent the file system is untouched. Otherwise the tool
runs and may write (possibly partial) output to `filePath ++ ".clean.png"`;
on a zero exit the temporary output, when present, replaces the original
via `renameSync`; on any failure (non-zero exit, timeout, exception) the
`catch` deletes the temporary output when present and returns. The
embedding is a total function returning the final filesystem: no branch
throws, so the parent `generateImage` call always continues. -/
def removeWatermark (scriptExists : Bool) (tool : ToolBehavior) (fs : FS)
    (filePath : String) : FS :=
  if !scriptExists then fs
  else
    let tmpOut := filePath ++ ".clean.png"
    let fs1 := match tool.output with
      | some b => fsInsert fs tmpOut b
      | none => fs
    if tool.exitOk then
      if fsExists fs1 tmpOut then fsRename fs1 tmpOut filePath else fs1
    else
      if fsExists fs1 tmpOut then fsErase fs1 tmpOut else fs1

theorem fsFind_erase_self (p : String) : ∀ fs : FS, fsFind (fsErase fs p) p = none := by
  intro fs
  induction fs with
  | nil => rfl
  | cons hd tl ih =>
    by_cases h : hd.1 = p
    · simpa [fsErase, h] using ih
    · simpa [fsErase, fsFind, h] using ih

theorem fsFind_erase_ne (p q : String) (hne : q ≠ p) :
    ∀ fs : FS, fsFind (fsErase fs p) q = fsFind fs q := by
  intro fs
  induction fs with
  | nil => rfl
  | cons hd tl ih =>
    rcases hd with ⟨a, c⟩
    by_cases h : a = p
    · subst h
      have hq : a ≠ q := fun hc => hne hc.symm
      simpa [fsErase, fsFind, hq] using ih
    · by_cases hq : a = q
      · subst hq
        simp [fsErase, fsFind, h]
      · simpa [fsErase, fsFind, h, hq] using ih

theorem fsFind_insert_self (fs : FS) (p : String) (b : List Nat) :
    fsFind (fsInsert fs p b) p = some b := by
  simp [fsInsert, fsFind]

theorem fsFind_insert_ne (fs : FS) (p q : String) (b : List Nat) (hne : q ≠ p) :
    fsFind (fsInsert fs p b) q = fsFind fs q := by
  have hp : p ≠ q := fun hc => hne hc.symm
  simp [fsInsert, fsFind, hp]
  exact fsFind_erase_ne p q hne fs

theorem tmpOut_ne_self (p : String) : p ++ ".clean.png" ≠ p := by
  intro h
  have hlen : (p ++ ".clean.png").length = p.length := by rw [h]
  rw [String.length_append] at hlen
  have hten : (".clean.png" : String).length = 10 := rfl
  omega

/-- C5. `removeWatermark` is a total function (the source catches every
failure path, so it never throws and the parent generation call always
proceeds). When the tool's entry script is absent the filesystem is
untouched. On any tool failure the temporary output is deleted and the
original file is byte-for-byte unchanged. On success the original is
replaced by the tool's output and the temporary path is gone — the move is
a rename, not a copy, so the content appears at exactly one path. -/
theorem c5_removeWatermark_contract (fs : FS) (tool : ToolBehavior)
    (filePath : String) :
    removeWatermark false tool fs filePath = fs ∧
    (tool.exitOk = false →
      fsFind (removeWatermark true tool fs filePath) filePath = fsFind fs filePath ∧
      fsFind (removeWatermark true tool fs filePath) (filePath ++ ".clean.png") =
        none) ∧
    (∀ b, tool.exitOk = true → tool.output = some b →
      fsFind (removeWatermark true tool fs filePath) filePath = some b ∧
      fsFind (removeWatermark true tool fs filePath) (filePath ++ ".clean.png") =
        none) := by
  have hne : filePath ++ ".clean.png" ≠ filePath := tmpOut_ne_self filePath
  have hne' : filePath ≠ filePath ++ ".clean.png" := fun hc => hne hc.symm
  refine ⟨rfl, ?_, ?_⟩
  · intro hfail
    cases hout : tool.output with
    | some b =>
      have hex : fsExists (fsInsert fs (filePath ++ ".clean.png") b)
          (filePath ++ ".clean.png") = true := by
        simp [fsExists, fsFind_insert_self]
      have hred : removeWatermark true tool fs filePath =
          fsErase (fsInsert fs (filePath ++ ".clean.png") b)
            (filePath ++ ".clean.png") := by
        simp [removeWatermark, hout, hfail, hex]
      rw [hred]
      constructor
      · rw [fsFind_erase_ne _ _ hne', fsFind_insert_ne _ _ _ _ hne']
      · exact fsFind_erase_self _ _
    | none =>
      cases hex : fsExists fs (filePath ++ ".clean.png") with
      | true =>
        have hred : removeWatermark true tool fs filePath =
            fsErase fs (filePath ++ ".clean.png") := by
          simp [removeWatermark, hout, hfail, hex]
        rw [hred]
        exact ⟨fsFind_erase_ne _ _ hne' fs, fsFind_erase_self _ _⟩
      | false =>
        have hnone : fsFind fs (filePath ++ ".clean.png") = none := by
          cases hfind : fsFind fs (filePath ++ ".clean.png") with
          | none => rfl
          | some v => rw [fsExists, hfind] at hex; simp at hex
        have hred : removeWatermark true tool fs filePath = fs := by
          simp [removeWatermark, hout, hfail, hex]
        rw [hred]
        exact ⟨rfl, hnone⟩
  · intro b hok hout
    have hex : fsExists (fsInsert fs (filePath ++ ".clean.png") b)
        (filePath ++ ".clean.png") = true := by
      simp [fsExists, fsFind_insert_self]
    have hfind : fsFind (fsInsert fs (filePath ++ ".clean.png") b)
        (filePath ++ ".clean.png") = some b := fsFind_insert_self fs _ b
    have hred : removeWatermark true tool fs filePath =
        fsRename (fsInsert fs (filePath ++ ".clean.png") b)
          (filePath ++ ".clean.png") filePath := by
      simp [removeWatermark, hout, hok, hex]
    have hren : fsRename (fsInsert fs (filePath ++ ".clean.png") b)
        (filePath ++ ".clean.png") filePath =
        fsInsert (fsErase (fsInsert fs (filePath ++ ".clean.png") b)
          (filePath ++ ".clean.png")) filePath b := by
      simp [fsRename, hfind]
    rw [hred, hren]
    constructor
    · exact fsFind_insert_self _ _ b
    · rw [fsFind_insert_ne _ _ _ _ hne]
      exact fsFind_erase_self _ _

/-- Witness for `c5_removeWatermark_contract`: a concrete image file, a
failing tool run that wrote partial output, and a succeeding run. -/
theorem c5_removeWatermark_contract_witness :
    fsFind (removeWatermark true ⟨some [9, 9], false⟩ [("img.png", [1, 2, 3])]
      "img.png") "img.png" = some [1, 2, 3] ∧
    fsFind (removeWatermark true ⟨some [9, 9], false⟩ [("img.png", [1, 2, 3])]
      "img.png") "img.png.clean.png" = none ∧
    fsFind (removeWatermark true ⟨some [7, 8], true⟩ [("img.png", [1, 2, 3])]
      "img.png") "img.png" = some [7, 8] ∧
    removeWatermark false ⟨some [9, 9], false⟩ [("img.png", [1, 2, 3])] "img.png" =
      [("img.png", [1, 2, 3])] := by
  refine ⟨?_, ?_, ?_, ?_⟩
  · exact ((c5_removeWatermark_contract [("img.png", [1, 2, 3])] ⟨some [9, 9], false⟩
      "img.png").2.1 rfl).1.trans (by decide)
  · exact ((c5_removeWatermark_contract [("img.png", [1, 2, 3])] ⟨some [9, 9], false⟩
      "img.png").2.1 rfl).2
  · exact ((c5_removeWatermark_contract [("img.png", [1, 2, 3])] ⟨some [7, 8], true⟩
      "img.png").2.2 [7, 8] rfl rfl).1
  · exact (c5_removeWatermark_contract [("img.png", [1, 2, 3])] ⟨some [9, 9], false⟩
      "img.png").1

/-! ### Top-level lifecycle (`generateImage`, lib.ts)

The convenience entry point wraps `connect` and the client call in
`try { } finally { await client.disconnect() }`. Its control flow is
embedded as a function of the two fallible step results that also records
the trace of lifecycle events. -/

/-- The result record of a generation call. -/
structure ImageResult where
  imagePath : String
  width : Nat
  height : Nat
deriving DecidableEq

/-- Lifecycle events of the top-level call. -/
inductive LifecycleEv where
  | connectEv
  | generateEv
  | disconnectEv
deriving DecidableEq

/-- Shallow embedding of the top-level `generateImage` of lib.ts: connect,
then generate, with `disconnect` in a `finally` block; the second component
is the ordered trace of lifecycle events. -/
def libGenerateImage (connectResult : Except JsError Unit)
    (genResult : Except JsError ImageResult) :
    Except JsError ImageResult × List LifecycleEv :=
  match connectResult with
  | .error e => (.error e, [.connectEv, .disconnectEv])
  | .ok _ =>
    match genResult with
    | .error e => (.error e, [.connectEv, .generateEv, .disconnectEv])
    | .ok r => (.ok r, [.connectEv, .generateEv, .disconnectEv])

/-- C8. The top-level `generateImage` invokes `disconnect` on every exit
path: whatever the connect and generation steps return — success, an
authentication, generation or browser failure at either step — the event
trace contains `disconnectEv`, and it is the final action before the call
completes; the call's result is the failing step's error, or the
generation result when both steps succeed. -/
theorem c8_disconnect_on_every_path (cr : Except JsError Unit)
    (gr : Except JsError ImageResult) :
    LifecycleEv.disconnectEv ∈ (libGenerateImage cr gr).2 ∧
    (libGenerateImage cr gr).2.getLast? = some LifecycleEv.disconnectEv ∧
    (∀ e, cr = .error e → (libGenerateImage cr gr).1 = .error e) ∧
    (cr = .ok () → (libGenerateImage cr gr).1 = gr) := by
  cases cr with
  | error e =>
    refine ⟨by simp [libGenerateImage], by simp [libGenerateImage], ?_, ?_⟩
    · intro e' he
      injection he with h
      subst h
      simp [libGenerateImage]
    · intro h; exact absurd h (by simp)
  | ok u =>
    cases gr with
    | error e =>
      refine ⟨by simp [libGenerateImage], by simp [libGenerateImage], ?_, ?_⟩
      · intro e' he; exact absurd he (by simp)
      · intro _; simp [libGenerateImage]
    | ok r =>
      refine ⟨by simp [libGenerateImage], by simp [libGenerateImage], ?_, ?_⟩
      · intro e' he; exact absurd he (by simp)
      · intro _; simp [libGenerateImage]

/-- Witness for `c8_disconnect_on_every_path` on a failing connect and on a
fully successful call. -/
theorem c8_disconnect_on_every_path_witness :
    (libGenerateImage (.error authTimeoutError)
      (.ok ⟨"/tmp/out.png", 1, 2⟩)).1 = .error authTimeoutError ∧
    (libGenerateImage (.ok ())
      (.ok ⟨"/tmp/out.png", 1, 2⟩)).1 = .ok ⟨"/tmp/out.png", 1, 2⟩ ∧
    (libGenerateImage (.error authTimeoutError)
      (.ok ⟨"/tmp/out.png", 1, 2⟩)).2.getLast? = some LifecycleEv.disconnectEv := by
  refine ⟨?_, ?_, ?_⟩
  · exact (c8_disconnect_on_every_path (.error authTimeoutError)
      (.ok ⟨"/tmp/out.png", 1, 2⟩)).2.2.1 authTimeoutError rfl
  · exact (c8_disconnect_on_every_path (.ok ())
      (.ok ⟨"/tmp/out.png", 1, 2⟩)).2.2.2 rfl
  · exact (c8_disconnect_on_every_path (.error authTimeoutError)
      (.ok ⟨"/tmp/out.png", 1, 2⟩)).2.1

/-! ### Error guidance (`getErrorGuidance`, errors.ts)

The guidance function first applies the `isGeminiError` test: any value
that is not a typed `GeminiError` gets a fixed generic text. A typed error
is dispatched on its code; the three recognized codes each produce the
error message followed by a distinct multi-line block of recovery steps,
and the `default` arm of the switch returns the error's own message. -/

/-- Recovery block for `AUTH_ERROR`. -/
def authRecovery : String :=
  "\n\nRecovery steps:\n1. Clear browser profile: rm -rf ~/.geminikit/browser-profile\n2. Run with headless=false to open browser for login\n3. Log in to Google manually\n4. Session will be saved for future headless use"

/-- Recovery block for `GENERATION_ERROR`. -/
def genRecovery : String :=
  "\n\nRecovery steps:\n1. Check if Gemini is available at gemini.google.com\n2. Try a different prompt (some content may be blocked)\n3. Verify your Google account has access to Gemini"

/-- Recovery block for `BROWSER_ERROR`. -/
def browserRecovery : String :=
  "\n\nRecovery steps:\n1. Kill any stuck browser processes\n2. Remove browser lock: rm -f ~/.geminikit/browser-profile/SingletonLock\n3. Try again"

/-- Shallow embedding of `getErrorGuidance` (errors.ts). The `.plain` case
stands for every input rejected by `isGeminiError`. -/
def getErrorGuidance : JsError → String
  | .plain _ => "An unexpected error occurred. Please try again."
  | .gemini _ msg code =>
    if code = "AUTH_ERROR" then msg ++ authRecovery
    else if code = "GENERATION_ERROR" then msg ++ genRecovery
    else if code = "BROWSER_ERROR" then msg ++ browserRecovery
    else msg

/-- Whether a string spans several lines (contains a newline). -/
def containsNewlineChar (s : String) : Bool :=
  s.data.any (fun c => c == '\n')

theorem containsNewlineChar_append (a b : String) :
    containsNewlineChar (a ++ b) = (containsNewlineChar a || containsNewlineChar b) := by
  simp [containsNewlineChar, String.data_append, List.any_append]

theorem append_ne_of_ne_right (m a b : String) (h : a ≠ b) : m ++ a ≠ m ++ b := by
  intro he
  apply h
  apply String.ext
  have hd : (m ++ a).data = (m ++ b).data := by rw [he]
  rw [String.data_append m a, String.data_append m b] at hd
  exact List.append_cancel_left hd

/-- C9 (amended). `getErrorGuidance` is a pure function of its input. For
each of the three recognized kinds it returns the error message followed by
a recovery block, the three results are pairwise distinct for any message
and each is multi-line; every input that is not a typed `GeminiError` gets
the fixed generic text; but a typed `GeminiError` whose code is none of the
three kinds returns its own message, not the generic default text. -/
theorem c9_guidance_amended (m : String) :
    getErrorGuidance (.gemini "AuthenticationError" m "AUTH_ERROR") =
      m ++ authRecovery ∧
    getErrorGuidance (.gemini "GenerationError" m "GENERATION_ERROR") =
      m ++ genRecovery ∧
    getErrorGuidance (.gemini "BrowserError" m "BROWSER_ERROR") =
      m ++ browserRecovery ∧
    m ++ authRecovery ≠ m ++ genRecovery ∧
    m ++ authRecovery ≠ m ++ browserRecovery ∧
    m ++ genRecovery ≠ m ++ browserRecovery ∧
    containsNewlineChar (m ++ authRecovery) = true ∧
    containsNewlineChar (m ++ genRecovery) = true ∧
    containsNewlineChar (m ++ browserRecovery) = true ∧
    getErrorGuidance (.plain m) = "An unexpected error occurred. Please try again." ∧
    (∀ nm msg code, code ≠ "AUTH_ERROR" → code ≠ "GENERATION_ERROR" →
      code ≠ "BROWSER_ERROR" → getErrorGuidance (.gemini nm msg code) = msg) := by
  refine ⟨rfl, rfl, rfl, ?_, ?_, ?_, ?_, ?_, ?_, rfl, ?_⟩
  · exact append_ne_of_ne_right m authRecovery genRecovery (by decide)
  · exact append_ne_of_ne_right m authRecovery browserRecovery (by decide)
  · exact append_ne_of_ne_right m genRecovery browserRecovery (by decide)
  · rw [containsNewlineChar_append]
    have h : containsNewlineChar authRecovery = true := by decide
    simp [h]
  · rw [containsNewlineChar_append]
    have h : containsNewlineChar genRecovery = true := by decide
    simp [h]
  · rw [containsNewlineChar_append]
    have h : containsNewlineChar browserRecovery = true := by decide
    simp [h]
  · intro nm msg code h1 h2 h3
    simp [getErrorGuidance, h1, h2, h3]

/-- Witness for `c9_guidance_amended` at concrete errors. -/
theorem c9_guidance_amended_witness :
    getErrorGuidance (.gemini "GeminiError" "boom" "SOME_OTHER_CODE") = "boom" ∧
    getErrorGuidance (.gemini "AuthenticationError" "boom" "AUTH_ERROR") =
      "boom" ++ authRecovery := by
  constructor
  · exact (c9_guidance_amended "x").2.2.2.2.2.2.2.2.2.2 "GeminiError" "boom"
      "SOME_OTHER_CODE" (by decide) (by decide) (by decide)
  · exact (c9_guidance_amended "boom").1

/-- C9 counterexample. Not every unrecognized error maps to a default
generic text: a typed `GeminiError` whose code is not one of the three
kinds returns its own message ("bar"), which differs from the generic text
that a non-`GeminiError` input receives, so the outputs on unrecognized
errors are not one default text. -/
theorem c9_counterexample :
    getErrorGuidance (.gemini "GeminiError" "bar" "SOME_OTHER_CODE") = "bar" ∧
    getErrorGuidance (.plain "bar") =
      "An unexpected error occurred. Please try again." ∧
    ("bar" : String) ≠ "An unexpected error occurred. Please try again." := by
  exact ⟨rfl, rfl, by decide⟩

end GeminiKit
